import Mathlib

/-!
Shallow embedding of the gate operation-mode resolution engine of the
smart-village-management backend (src/backend/src/routes/gate_schedule.py).

Times of day are naturals (e.g. minutes since midnight); absolute instants
are (day index, time of day) pairs compared lexicographically, with
`day % 7` the weekday (0 = Monday, 6 = Sunday, matching Python's
`datetime.weekday()`).  The database session is modelled as the lists of
`GateSchedule` and `GateOverride` rows, in the order the store returns them
(the routes issue unordered queries and take `.first()`).  Route handlers
become functions returning `Except HTTPException response`.
-/

namespace SmartVillage

inductive GateOperationMode where
  | staff_assisted
  | automated
deriving DecidableEq, Repr

/-- The strings the next-change endpoint can place in its `next_mode` field:
the two operation modes plus the literal placeholder `"scheduled"` used in the
override-expiry branch. -/
inductive NextModeStr where
  | staff_assisted
  | automated
  | scheduled
deriving DecidableEq, Repr

def GateOperationMode.toStr : GateOperationMode → NextModeStr
  | .staff_assisted => .staff_assisted
  | .automated => .automated

/-- An absolute instant: `day` is an absolute day index whose residue mod 7 is
the weekday (0 = Monday), `tod` the time of day. -/
structure DateTime where
  day : Nat
  tod : Nat
deriving DecidableEq, Repr

def DateTime.weekday (t : DateTime) : Nat := t.day % 7

/-- Lexicographic strict order on instants, as Python compares `datetime`s. -/
def DateTime.ltb (a b : DateTime) : Bool :=
  decide (a.day < b.day) || (a.day == b.day && decide (a.tod < b.tod))

/-- A row of the `gate_schedules` table (fields used by the routes). -/
structure GateSchedule where
  id : Nat
  village_id : Nat
  gate_id : Nat
  operation_mode : GateOperationMode
  days_of_week : List Nat
  start_time : Nat
  end_time : Nat
deriving DecidableEq, Repr

/-- A row of the `gate_overrides` table (fields used by the routes). -/
structure GateOverride where
  id : Nat
  village_id : Nat
  gate_id : Nat
  operation_mode : GateOperationMode
  expiry_time : DateTime
  created_by : Nat
deriving DecidableEq, Repr

/-- The database state visible to the gate-schedule routes. -/
structure Db where
  schedules : List GateSchedule
  overrides : List GateOverride
deriving DecidableEq, Repr

inductive UserRole where
  | ADMIN
  | STAFF
  | RESIDENT
deriving DecidableEq, Repr

structure HTTPException where
  status_code : Nat
  detail : String
deriving DecidableEq, Repr

def gateNotFound : HTTPException := ⟨404, "Gate not found"⟩

def exceptOk {ε α : Type} : Except ε α → Bool
  | .ok _ => true
  | .error _ => false

instance {ε α : Type} [DecidableEq ε] [DecidableEq α] : DecidableEq (Except ε α)
  | .ok a, .ok b =>
      if h : a = b then isTrue (by rw [h])
      else isFalse (by intro hh; cases hh; exact h rfl)
  | .ok _, .error _ => isFalse (by intro h; cases h)
  | .error _, .ok _ => isFalse (by intro h; cases h)
  | .error e, .error f =>
      if h : e = f then isTrue (by rw [h])
      else isFalse (by intro hh; cases hh; exact h rfl)

inductive ModeSource where
  | override
  | schedule
  | dflt
deriving DecidableEq, Repr

/-- The JSON body of `GET /gates/.../effective-mode` (fields that vary). -/
structure EffectiveModeResponse where
  gate_id : Nat
  effective_mode : GateOperationMode
  source : ModeSource
  expiry_time : Option DateTime
  created_by : Option Nat
  schedule_id : Option Nat
  start_time : Option Nat
  end_time : Option Nat
  timestamp : DateTime
deriving DecidableEq, Repr

/-- Filter used by the routes to scope schedule rows to one village and gate. -/
def scheduleForGate (village_id gate_id : Nat) (s : GateSchedule) : Bool :=
  s.village_id == village_id && s.gate_id == gate_id

/-- The routes' "gate exists" check: at least one schedule row for the gate. -/
def gateExists (db : Db) (village_id gate_id : Nat) : Bool :=
  db.schedules.any (scheduleForGate village_id gate_id)

def overrideForGate (village_id gate_id : Nat) (o : GateOverride) : Bool :=
  o.village_id == village_id && o.gate_id == gate_id

/-- The query for a live override: scoped to the gate, `expiry_time > now`,
taking the first row returned. -/
def activeOverride (db : Db) (village_id gate_id : Nat) (now : DateTime) :
    Option GateOverride :=
  (db.overrides.filter
    (fun o => overrideForGate village_id gate_id o && now.ltb o.expiry_time)).head?

/-- The schedule-match condition of the effective-mode query: right gate,
`days_of_week` contains today's weekday, `start_time <= now < end_time`. -/
def scheduleMatchesNow (village_id gate_id : Nat) (now : DateTime)
    (s : GateSchedule) : Bool :=
  scheduleForGate village_id gate_id s &&
  s.days_of_week.contains now.weekday &&
  decide (s.start_time ≤ now.tod) && decide (now.tod < s.end_time)

/-- `GET /gates/{gate_id}/effective-mode` (`get_effective_gate_operation_mode`):
404 when the gate has no schedule rows; otherwise an active override wins,
else the first matching schedule, else the staff-assisted default. -/
def get_effective_gate_operation_mode (db : Db) (village_id gate_id : Nat)
    (now : DateTime) : Except HTTPException EffectiveModeResponse :=
  if !(gateExists db village_id gate_id) then
    .error gateNotFound
  else
    match activeOverride db village_id gate_id now with
    | some o =>
        .ok ⟨gate_id, o.operation_mode, .override, some o.expiry_time,
             some o.created_by, none, none, none, now⟩
    | none =>
        match (db.schedules.filter (scheduleMatchesNow village_id gate_id now)).head? with
        | some s =>
            .ok ⟨gate_id, s.operation_mode, .schedule, none, none,
                 some s.id, some s.start_time, some s.end_time, now⟩
        | none =>
            .ok ⟨gate_id, .staff_assisted, .dflt, none, none, none, none, none, now⟩

inductive NextChangeType where
  | override_expiry
  | schedule_start
  | schedule_end
deriving DecidableEq, Repr

/-- The JSON body of `GET /gates/.../next-change` (union of the fields of its
four return shapes; absent fields are `none`). -/
structure NextChangeResponse where
  gate_id : Nat
  has_next_change : Bool
  next_change_type : Option NextChangeType
  current_mode : Option GateOperationMode
  current_schedule_id : Option Nat
  next_schedule_id : Option Nat
  next_mode : Option NextModeStr
  change_time : Option DateTime
  days_until : Option Nat
  message : Option String
  timestamp : Option DateTime
deriving DecidableEq, Repr

inductive BoundaryKind where
  | bstart
  | bend
deriving DecidableEq, Repr

/-- The `next_change` dict accumulated inside `get_next_gate_mode_change`. -/
structure ChangeCand where
  dt : DateTime
  schedule : GateSchedule
  days_until : Nat
  kind : BoundaryKind
deriving DecidableEq, Repr

/-- `if not next_change or next_datetime < next_change["datetime"]` -/
def considerCand (cur : Option ChangeCand) (c : ChangeCand) : Option ChangeCand :=
  match cur with
  | none => some c
  | some old => if c.dt.ltb old.dt then some c else some old

/-- One iteration of the today-loop: a schedule contributes its start boundary
(if still ahead today) then its end boundary (if still ahead today). -/
def todayStep (now : DateTime) (cur : Option ChangeCand) (s : GateSchedule) :
    Option ChangeCand :=
  let cur1 :=
    if s.start_time > now.tod then
      considerCand cur ⟨⟨now.day, s.start_time⟩, s, 0, .bstart⟩
    else cur
  if s.end_time > now.tod then
    considerCand cur1 ⟨⟨now.day, s.end_time⟩, s, 0, .bend⟩
  else cur1

/-- Python's `min(day_schedules, key=lambda s: s.start_time)`: first element
with minimal `start_time`. -/
def minByStart (s : GateSchedule) (rest : List GateSchedule) : GateSchedule :=
  rest.foldl (fun best x => if x.start_time < best.start_time then x else best) s

/-- The look-ahead loop `for days_ahead in range(1, 8)`: on the first upcoming
day having schedules, take the one with the earliest start. -/
def findAhead (gateSchedules : List GateSchedule) (now : DateTime)
    (current_day : Nat) : Nat → Nat → Option ChangeCand
  | _, 0 => none
  | days_ahead, fuel + 1 =>
    match gateSchedules.filter
        (fun s => s.days_of_week.contains ((current_day + days_ahead) % 7)) with
    | [] => findAhead gateSchedules now current_day (days_ahead + 1) fuel
    | s :: rest =>
        some ⟨⟨now.day + days_ahead, (minByStart s rest).start_time⟩,
              minByStart s rest, days_ahead, .bstart⟩

/-- The whole candidate search: today's boundaries first, else the 7-day
look-ahead. -/
def nextCandidate (gateSchedules : List GateSchedule) (now : DateTime) :
    Option ChangeCand :=
  match (gateSchedules.filter
      (fun s => s.days_of_week.contains now.weekday)).foldl (todayStep now) none with
  | some c => some c
  | none => findAhead gateSchedules now now.weekday 1 7

/-- Override-expiry return shape: note `next_mode` is the literal string
`"scheduled"`. -/
def overrideExpiryResponse (gate_id : Nat) (o : GateOverride) (now : DateTime) :
    NextChangeResponse :=
  ⟨gate_id, true, some .override_expiry, some o.operation_mode, none, none,
   some .scheduled, some o.expiry_time, none, none, some now⟩

/-- Schedule-change return shape; for an end boundary the mode coming next is
looked up among schedules starting exactly at that instant, else default
(`next_day` is the change instant's weekday, `next_time` the ending
schedule's `end_time`). -/
def scheduleChangeResponse (db : Db) (village_id gate_id : Nat) (now : DateTime)
    (c : ChangeCand) : NextChangeResponse :=
  match c.kind with
  | .bstart =>
      ⟨gate_id, true, some .schedule_start, none, none, some c.schedule.id,
       some c.schedule.operation_mode.toStr, some c.dt, some c.days_until,
       none, some now⟩
  | .bend =>
      match (db.schedules.filter (fun s =>
          scheduleForGate village_id gate_id s &&
          s.days_of_week.contains c.dt.weekday &&
          s.start_time == c.schedule.end_time)).head? with
      | some ns =>
          ⟨gate_id, true, some .schedule_end, none, some c.schedule.id, none,
           some ns.operation_mode.toStr, some c.dt, some c.days_until, none, some now⟩
      | none =>
          ⟨gate_id, true, some .schedule_end, none, some c.schedule.id, none,
           some NextModeStr.staff_assisted, some c.dt, some c.days_until, none, some now⟩

def noSchedulesResponse (gate_id : Nat) : NextChangeResponse :=
  ⟨gate_id, false, none, none, none, none, none, none, none,
   some "No schedules configured for this gate", none⟩

def noUpcomingResponse (gate_id : Nat) (now : DateTime) : NextChangeResponse :=
  ⟨gate_id, false, none, none, none, none, none, none, none,
   some "No upcoming mode changes scheduled", some now⟩

/-- `GET /gates/{gate_id}/next-change` (`get_next_gate_mode_change`): 404 when
the gate has no schedule rows; an active override is reported only when its
expiry is strictly before the earliest schedule boundary. -/
def get_next_gate_mode_change (db : Db) (village_id gate_id : Nat)
    (now : DateTime) : Except HTTPException NextChangeResponse :=
  if !(gateExists db village_id gate_id) then
    .error gateNotFound
  else if (db.schedules.filter (scheduleForGate village_id gate_id)).isEmpty then
    .ok (noSchedulesResponse gate_id)
  else
    match activeOverride db village_id gate_id now,
        nextCandidate (db.schedules.filter (scheduleForGate village_id gate_id)) now with
    | some o, none => .ok (overrideExpiryResponse gate_id o now)
    | some o, some c =>
        if o.expiry_time.ltb c.dt then .ok (overrideExpiryResponse gate_id o now)
        else .ok (scheduleChangeResponse db village_id gate_id now c)
    | none, some c => .ok (scheduleChangeResponse db village_id gate_id now c)
    | none, none => .ok (noUpcomingResponse gate_id now)

/-- Payload of `POST /` (`schemas.GateScheduleCreate`, reconstructed from its
use in the route and the `GateSchedule` model). -/
structure GateScheduleCreate where
  village_id : Nat
  gate_id : Nat
  operation_mode : GateOperationMode
  days_of_week : List Nat
  start_time : Nat
  end_time : Nat
deriving DecidableEq, Repr

/-- PostgreSQL array `overlap` (`&&`): the two day sets share an element. -/
def daysOverlap (a b : List Nat) : Bool := a.any (fun d => b.contains d)

/-- `POST /` (`create_gate_schedule`): admin-only, same-village-only, rejects
`start_time >= end_time` and strict time-range overlap on an intersecting day
set; on success appends the new row. -/
def create_gate_schedule (db : Db) (role : UserRole) (user_village : Nat)
    (d : GateScheduleCreate) (new_id : Nat) : Except HTTPException Db :=
  if role ≠ UserRole.ADMIN then
    .error ⟨403, "Not authorized to create gate schedules"⟩
  else if d.village_id ≠ user_village then
    .error ⟨400, "Cannot create schedule for different village"⟩
  else if d.start_time ≥ d.end_time then
    .error ⟨400, "Start time must be before end time"⟩
  else if !(db.schedules.filter (fun s =>
      s.village_id == user_village && s.gate_id == d.gate_id &&
      daysOverlap s.days_of_week d.days_of_week &&
      decide (s.start_time < d.end_time) && decide (s.end_time > d.start_time))).isEmpty then
    .error ⟨400, "Schedule overlaps with existing schedules for this gate"⟩
  else
    .ok ⟨db.schedules ++ [⟨new_id, d.village_id, d.gate_id, d.operation_mode,
          d.days_of_week, d.start_time, d.end_time⟩], db.overrides⟩

/-- `DELETE /gates/{gate_id}/override` (`clear_gate_operation_mode_override`):
staff/admin only; deletes the first override row for the gate if one exists,
otherwise does nothing; always succeeds (HTTP 204). -/
def clear_gate_operation_mode_override (db : Db) (role : UserRole)
    (village_id gate_id : Nat) : Except HTTPException Db :=
  if role ∉ [UserRole.ADMIN, UserRole.STAFF] then
    .error ⟨403, "Not authorized to clear gate operation mode override"⟩
  else
    match (db.overrides.filter (overrideForGate village_id gate_id)).head? with
    | some o => .ok ⟨db.schedules, db.overrides.filter (fun x => x.id ≠ o.id)⟩
    | none => .ok db

/-! ## Shared lemmas -/

theorem mem_and_pred_of_head_filter {α : Type} {p : α → Bool} {l : List α} {a : α}
    (h : (l.filter p).head? = some a) : a ∈ l ∧ p a = true := by
  obtain ⟨ys, hys⟩ := List.head?_eq_some_iff.mp h
  have hmem : a ∈ l.filter p := by rw [hys]; exact List.mem_cons_self a ys
  exact List.mem_filter.mp hmem

theorem filter_nil_of_head_none {α : Type} {p : α → Bool} {l : List α}
    (h : (l.filter p).head? = none) : l.filter p = [] :=
  List.head?_eq_none_iff.mp h

theorem head_filter_eq_some_of_uniq {α : Type} {p : α → Bool} {l : List α} {a : α}
    (ha : a ∈ l) (hpa : p a = true)
    (huniq : ∀ b ∈ l, p b = true → b = a) :
    (l.filter p).head? = some a := by
  cases hf : (l.filter p).head? with
  | none =>
      have hnil := filter_nil_of_head_none hf
      exact absurd hpa (by simpa using (List.filter_eq_nil_iff.mp hnil a ha))
  | some x =>
      obtain ⟨hxl, hpx⟩ := mem_and_pred_of_head_filter hf
      rw [huniq x hxl hpx]

theorem activeOverride_eq_none {db : Db} {v g : Nat} {now : DateTime}
    (h : ∀ o ∈ db.overrides, overrideForGate v g o = true →
         now.ltb o.expiry_time = false) :
    activeOverride db v g now = none := by
  unfold activeOverride
  have hnil : db.overrides.filter
      (fun o => overrideForGate v g o && now.ltb o.expiry_time) = [] := by
    rw [List.filter_eq_nil_iff]
    intro o ho hcontra
    rw [Bool.and_eq_true] at hcontra
    have hfalse := h o ho hcontra.1
    rw [hfalse] at hcontra
    exact Bool.false_ne_true hcontra.2
  rw [hnil]
  rfl

theorem gateExists_eq_true_of_mem {db : Db} {v g : Nat} {s : GateSchedule}
    (hs : s ∈ db.schedules) (hp : scheduleForGate v g s = true) :
    gateExists db v g = true := by
  unfold gateExists
  exact List.any_eq_true.mpr ⟨s, hs, hp⟩

theorem gateExists_of_filter_cons {db : Db} {v g : Nat} {s : GateSchedule}
    {rest : List GateSchedule}
    (h : db.schedules.filter (scheduleForGate v g) = s :: rest) :
    gateExists db v g = true := by
  have hs : s ∈ db.schedules.filter (scheduleForGate v g) := by
    rw [h]; exact List.mem_cons_self s rest
  obtain ⟨h1, h2⟩ := List.mem_filter.mp hs
  exact gateExists_eq_true_of_mem h1 h2

theorem DateTime.ltb_irrefl (a : DateTime) : a.ltb a = false := by
  simp [DateTime.ltb]

theorem allFilter_nonempty {db : Db} {v g : Nat}
    (h : gateExists db v g = true) :
    (db.schedules.filter (scheduleForGate v g)).isEmpty = false := by
  unfold gateExists at h
  obtain ⟨s, hs, hp⟩ := List.any_eq_true.mp h
  have hmem : s ∈ db.schedules.filter (scheduleForGate v g) :=
    List.mem_filter.mpr ⟨hs, hp⟩
  cases hf : db.schedules.filter (scheduleForGate v g) with
  | nil => rw [hf] at hmem; cases hmem
  | cons x xs => rfl

/-- The `next_change_type` reported for a schedule-boundary change is
`schedule_start` for a start boundary and `schedule_end` for an end boundary,
whatever the continuation lookup finds. -/
theorem scheduleChangeResponse_type (db : Db) (v g : Nat) (now : DateTime)
    (c : ChangeCand) :
    (scheduleChangeResponse db v g now c).next_change_type =
      some (match c.kind with
            | .bstart => NextChangeType.schedule_start
            | .bend => NextChangeType.schedule_end) := by
  unfold scheduleChangeResponse
  cases c.kind with
  | bstart => rfl
  | bend =>
      cases (db.schedules.filter (fun s =>
          scheduleForGate v g s &&
          s.days_of_week.contains c.dt.weekday &&
          s.start_time == c.schedule.end_time)).head? <;> rfl

theorem findAhead_skip (gs : List GateSchedule) (now : DateTime)
    (cd k fuel : Nat)
    (h : gs.filter (fun s => s.days_of_week.contains ((cd + k) % 7)) = []) :
    findAhead gs now cd k (fuel + 1) = findAhead gs now cd (k + 1) fuel := by
  conv_lhs => rw [findAhead]
  rw [h]

theorem findAhead_hit (gs : List GateSchedule) (now : DateTime)
    (cd k fuel : Nat) (s : GateSchedule) (rest : List GateSchedule)
    (h : gs.filter (fun t => t.days_of_week.contains ((cd + k) % 7)) = s :: rest) :
    findAhead gs now cd k (fuel + 1) =
      some ⟨⟨now.day + k, (minByStart s rest).start_time⟩,
            minByStart s rest, k, .bstart⟩ := by
  conv_lhs => rw [findAhead]
  rw [h]

/-! ## Claims -/

/-- C1 counterexample: a call on a db holding an active override (expiry
strictly after `now`) but no schedule rows returns the 404 error, not an
override-sourced mode result — so the claim's "regardless of which schedules
exist" fails on the code. -/
theorem C1_counterexample :
    DateTime.ltb ⟨0, 0⟩ (⟨0, 100⟩ : DateTime) = true ∧
    get_effective_gate_operation_mode ⟨[], [⟨1, 0, 0, .automated, ⟨0, 100⟩, 5⟩]⟩ 0 0 ⟨0, 0⟩ =
      .error gateNotFound := by decide

/-- C1 (amended): provided at least one schedule row exists for the gate (the
gate-exists precondition; otherwise the endpoint 404s before consulting the
override) and the gate's override rows are unique, an override with
`expiry_time > now` makes the effective-mode resolution return the override's
`operation_mode` with source `override`, reporting the override's
`expiry_time`, regardless of which schedules exist or match at `now`. -/
theorem C1_override_wins (db : Db) (v g : Nat) (now : DateTime) (o : GateOverride)
    (hgate : gateExists db v g = true)
    (hmem : o ∈ db.overrides) (ho : overrideForGate v g o = true)
    (hexp : now.ltb o.expiry_time = true)
    (huniq : ∀ o2 ∈ db.overrides, overrideForGate v g o2 = true → o2 = o) :
    get_effective_gate_operation_mode db v g now =
      .ok ⟨g, o.operation_mode, .override, some o.expiry_time,
           some o.created_by, none, none, none, now⟩ := by
  have hao : activeOverride db v g now = some o := by
    unfold activeOverride
    apply head_filter_eq_some_of_uniq hmem
    · rw [Bool.and_eq_true]; exact ⟨ho, hexp⟩
    · intro b hb hpb
      rw [Bool.and_eq_true] at hpb
      exact huniq b hb hpb.1
  unfold get_effective_gate_operation_mode
  rw [hgate, hao]
  rfl

theorem C1_override_wins_witness :
    get_effective_gate_operation_mode
        ⟨[⟨1, 0, 0, .automated, [0], 100, 200⟩],
         [⟨7, 0, 0, .staff_assisted, ⟨2, 30⟩, 9⟩]⟩ 0 0 ⟨1, 50⟩ =
      .ok ⟨0, .staff_assisted, .override, some ⟨2, 30⟩, some 9,
           none, none, none, ⟨1, 50⟩⟩ :=
  C1_override_wins _ 0 0 _ ⟨7, 0, 0, .staff_assisted, ⟨2, 30⟩, 9⟩
    (by decide) (by decide) (by decide) (by decide) (by decide)

/-- C2: when the gate has schedule rows and no override for it is live at
`now`, the effective-mode resolution returns a schedule's `operation_mode`
with source `schedule` exactly when some schedule of the gate has `now`'s
weekday in `days_of_week` and `start_time <= now.tod < end_time`; when no
schedule matches it returns the STAFF_ASSISTED default with source
`default`. -/
theorem C2_schedule_exactly_when (db : Db) (v g : Nat) (now : DateTime)
    (hgate : gateExists db v g = true)
    (hno : ∀ o ∈ db.overrides, overrideForGate v g o = true →
           now.ltb o.expiry_time = false) :
    (∃ s, s ∈ db.schedules ∧ s.village_id = v ∧ s.gate_id = g ∧
        s.days_of_week.contains now.weekday = true ∧
        s.start_time ≤ now.tod ∧ now.tod < s.end_time ∧
        get_effective_gate_operation_mode db v g now =
          .ok ⟨g, s.operation_mode, .schedule, none, none, some s.id,
               some s.start_time, some s.end_time, now⟩) ∨
    ((∀ s ∈ db.schedules, s.village_id = v → s.gate_id = g →
        s.days_of_week.contains now.weekday = true →
        s.start_time ≤ now.tod → ¬ now.tod < s.end_time) ∧
      get_effective_gate_operation_mode db v g now =
        .ok ⟨g, .staff_assisted, .dflt, none, none, none, none, none, now⟩) := by
  have hao : activeOverride db v g now = none := activeOverride_eq_none hno
  cases hf : (db.schedules.filter (scheduleMatchesNow v g now)).head? with
  | some s =>
      left
      obtain ⟨hmem, hpred⟩ := mem_and_pred_of_head_filter hf
      unfold scheduleMatchesNow scheduleForGate at hpred
      simp only [Bool.and_eq_true, beq_iff_eq, decide_eq_true_eq] at hpred
      obtain ⟨⟨⟨⟨hv2, hg2⟩, hd⟩, h4⟩, h5⟩ := hpred
      refine ⟨s, hmem, hv2, hg2, hd, h4, h5, ?_⟩
      unfold get_effective_gate_operation_mode
      rw [hgate, hao, hf]
      rfl
  | none =>
      right
      have hnil : db.schedules.filter (scheduleMatchesNow v g now) = [] :=
        filter_nil_of_head_none hf
      constructor
      · intro s hs h1 h2 h3 h4 h5
        have hnot := List.filter_eq_nil_iff.mp hnil s hs
        apply hnot
        unfold scheduleMatchesNow scheduleForGate
        simp only [Bool.and_eq_true, beq_iff_eq, decide_eq_true_eq]
        exact ⟨⟨⟨⟨h1, h2⟩, h3⟩, h4⟩, h5⟩
      · unfold get_effective_gate_operation_mode
        rw [hgate, hao, hf]
        rfl

theorem C2_schedule_exactly_when_witness :
    (∃ s, s ∈ ([⟨1, 0, 0, .automated, [0], 100, 200⟩] : List GateSchedule) ∧
        s.village_id = 0 ∧ s.gate_id = 0 ∧
        s.days_of_week.contains (DateTime.weekday ⟨0, 150⟩) = true ∧
        s.start_time ≤ 150 ∧ 150 < s.end_time ∧
        get_effective_gate_operation_mode
            ⟨[⟨1, 0, 0, .automated, [0], 100, 200⟩], []⟩ 0 0 ⟨0, 150⟩ =
          .ok ⟨0, s.operation_mode, .schedule, none, none, some s.id,
               some s.start_time, some s.end_time, ⟨0, 150⟩⟩) ∨
    ((∀ s ∈ ([⟨1, 0, 0, .automated, [0], 100, 200⟩] : List GateSchedule),
        s.village_id = 0 → s.gate_id = 0 →
        s.days_of_week.contains (DateTime.weekday ⟨0, 150⟩) = true →
        s.start_time ≤ 150 → ¬ (150 : Nat) < s.end_time) ∧
      get_effective_gate_operation_mode
          ⟨[⟨1, 0, 0, .automated, [0], 100, 200⟩], []⟩ 0 0 ⟨0, 150⟩ =
        .ok ⟨0, .staff_assisted, .dflt, none, none, none, none, none, ⟨0, 150⟩⟩) :=
  C2_schedule_exactly_when ⟨[⟨1, 0, 0, .automated, [0], 100, 200⟩], []⟩ 0 0 ⟨0, 150⟩
    (by decide) (by decide)

/-- C3 counterexample: for a gate with no schedules and no override, both
endpoints return the 404 error — the resolver does raise, instead of
degrading to the STAFF_ASSISTED default and `has_next_change = false`. -/
theorem C3_counterexample :
    get_effective_gate_operation_mode ⟨[], []⟩ 0 0 ⟨0, 0⟩ = .error gateNotFound ∧
    get_next_gate_mode_change ⟨[], []⟩ 0 0 ⟨0, 0⟩ = .error gateNotFound := by decide

/-- C3 (amended): for a gate with no schedule rows both the effective-mode
resolution and the next-change computation raise HTTP 404 (Gate not found),
regardless of `now` and of any stored override; the default-mode and
`has_next_change = false` fallbacks are reachable only for gates that do have
schedule rows. -/
theorem C3_no_schedules_404 (db : Db) (v g : Nat) (now : DateTime)
    (h : gateExists db v g = false) :
    get_effective_gate_operation_mode db v g now = .error gateNotFound ∧
    get_next_gate_mode_change db v g now = .error gateNotFound := by
  unfold get_effective_gate_operation_mode get_next_gate_mode_change
  rw [h]
  exact ⟨rfl, rfl⟩

theorem C3_no_schedules_404_witness :
    get_effective_gate_operation_mode
        ⟨[⟨1, 0, 1, .automated, [0], 100, 200⟩], []⟩ 0 0 ⟨0, 0⟩ = .error gateNotFound ∧
    get_next_gate_mode_change
        ⟨[⟨1, 0, 1, .automated, [0], 100, 200⟩], []⟩ 0 0 ⟨0, 0⟩ = .error gateNotFound :=
  C3_no_schedules_404 _ 0 0 _ (by decide)

/-- C4 counterexample: with an active override (expiry Mon 00:50) over a gate
whose only schedule is Mon 100-200, the next-change computation reports the
override expiry with `next_mode` the literal `"scheduled"`, while the
effective-mode resolution at the expiry instant with the override excluded
yields the STAFF_ASSISTED default — and `"scheduled"` is not that mode. -/
theorem C4_counterexample :
    get_next_gate_mode_change
        ⟨[⟨1, 0, 0, .automated, [0], 100, 200⟩],
         [⟨5, 0, 0, .automated, ⟨0, 50⟩, 9⟩]⟩ 0 0 ⟨0, 10⟩ =
      .ok ⟨0, true, some .override_expiry, some .automated, none, none,
           some .scheduled, some ⟨0, 50⟩, none, none, some ⟨0, 10⟩⟩ ∧
    get_effective_gate_operation_mode
        ⟨[⟨1, 0, 0, .automated, [0], 100, 200⟩], []⟩ 0 0 ⟨0, 50⟩ =
      .ok ⟨0, .staff_assisted, .dflt, none, none, none, none, none, ⟨0, 50⟩⟩ ∧
    NextModeStr.scheduled ≠ GateOperationMode.staff_assisted.toStr := by decide

/-- C4 (amended): whenever the next-change computation reports an
override-expiry change, the reported next mode is the constant placeholder
string `"scheduled"` — the code never evaluates the effective mode at the
expiry instant. -/
theorem get_next_mode_change_cases (db : Db) (v g : Nat) (now : DateTime) :
    get_next_gate_mode_change db v g now = .error gateNotFound ∨
    get_next_gate_mode_change db v g now = .ok (noSchedulesResponse g) ∨
    (∃ o, get_next_gate_mode_change db v g now = .ok (overrideExpiryResponse g o now)) ∨
    (∃ c, get_next_gate_mode_change db v g now =
        .ok (scheduleChangeResponse db v g now c)) ∨
    get_next_gate_mode_change db v g now = .ok (noUpcomingResponse g now) := by
  unfold get_next_gate_mode_change
  split
  · exact Or.inl rfl
  · split
    · exact Or.inr (Or.inl rfl)
    · split
      · exact Or.inr (Or.inr (Or.inl ⟨_, rfl⟩))
      · split
        · exact Or.inr (Or.inr (Or.inl ⟨_, rfl⟩))
        · exact Or.inr (Or.inr (Or.inr (Or.inl ⟨_, rfl⟩)))
      · exact Or.inr (Or.inr (Or.inr (Or.inl ⟨_, rfl⟩)))
      · exact Or.inr (Or.inr (Or.inr (Or.inr rfl)))

theorem C4_override_expiry_reports_scheduled (db : Db) (v g : Nat)
    (now : DateTime) (r : NextChangeResponse)
    (h : get_next_gate_mode_change db v g now = .ok r)
    (ht : r.next_change_type = some NextChangeType.override_expiry) :
    r.next_mode = some NextModeStr.scheduled := by
  rcases get_next_mode_change_cases db v g now with
    hcase | hcase | ⟨o, hcase⟩ | ⟨c, hcase⟩ | hcase <;> rw [hcase] at h
  · exact Except.noConfusion h
  · injection h with h2
    rw [← h2] at ht
    exact absurd ht (by simp [noSchedulesResponse])
  · injection h with h2
    rw [← h2]
    rfl
  · injection h with h2
    rw [← h2, scheduleChangeResponse_type] at ht
    cases hk : c.kind <;> rw [hk] at ht <;> simp at ht
  · injection h with h2
    rw [← h2] at ht
    exact absurd ht (by simp [noUpcomingResponse])

theorem C4_override_expiry_reports_scheduled_witness :
    (⟨0, true, some .override_expiry, some .automated, none, none,
      some .scheduled, some ⟨0, 50⟩, none, none, some ⟨0, 10⟩⟩ :
        NextChangeResponse).next_mode = some NextModeStr.scheduled :=
  C4_override_expiry_reports_scheduled
    ⟨[⟨1, 0, 0, .automated, [0], 100, 200⟩],
     [⟨5, 0, 0, .automated, ⟨0, 50⟩, 9⟩]⟩ 0 0 ⟨0, 10⟩ _ (by decide) (by decide)

/-- C5 counterexample: the active override expires at exactly the earliest
upcoming schedule boundary (Mon 100), yet the next-change computation reports
the schedule boundary (`schedule_start`), not `override_expiry` — the code's
comparison is strict. -/
theorem C5_counterexample :
    activeOverride
        ⟨[⟨1, 0, 0, .automated, [0], 100, 200⟩],
         [⟨5, 0, 0, .staff_assisted, ⟨0, 100⟩, 9⟩]⟩ 0 0 ⟨0, 10⟩ =
      some ⟨5, 0, 0, .staff_assisted, ⟨0, 100⟩, 9⟩ ∧
    get_next_gate_mode_change
        ⟨[⟨1, 0, 0, .automated, [0], 100, 200⟩],
         [⟨5, 0, 0, .staff_assisted, ⟨0, 100⟩, 9⟩]⟩ 0 0 ⟨0, 10⟩ =
      .ok ⟨0, true, some .schedule_start, none, none, some 1, some .automated,
           some ⟨0, 100⟩, some 0, none, some ⟨0, 10⟩⟩ ∧
    some NextChangeType.schedule_start ≠ some NextChangeType.override_expiry := by
  decide

/-- C5 (amended): when an active override's `expiry_time` exactly equals the
computed next schedule boundary, the next-change computation reports the
schedule event, not the override expiry — the override wins only on a
strictly earlier expiry. -/
theorem C5_tie_schedule_wins (db : Db) (v g : Nat) (now : DateTime)
    (o : GateOverride) (c : ChangeCand)
    (hgate : gateExists db v g = true)
    (hov : activeOverride db v g now = some o)
    (hc : nextCandidate (db.schedules.filter (scheduleForGate v g)) now = some c)
    (heq : o.expiry_time = c.dt) :
    get_next_gate_mode_change db v g now =
      .ok (scheduleChangeResponse db v g now c) := by
  have hne := allFilter_nonempty hgate
  have hstep : get_next_gate_mode_change db v g now =
      (if o.expiry_time.ltb c.dt then .ok (overrideExpiryResponse g o now)
       else .ok (scheduleChangeResponse db v g now c)) := by
    unfold get_next_gate_mode_change
    rw [hgate, hne, hov, hc]
    rfl
  rw [hstep, heq, DateTime.ltb_irrefl]
  rfl

theorem C5_tie_schedule_wins_witness :
    get_next_gate_mode_change
        ⟨[⟨1, 0, 0, .automated, [0], 100, 200⟩],
         [⟨5, 0, 0, .staff_assisted, ⟨0, 100⟩, 9⟩]⟩ 0 0 ⟨0, 10⟩ =
      .ok (scheduleChangeResponse
        ⟨[⟨1, 0, 0, .automated, [0], 100, 200⟩],
         [⟨5, 0, 0, .staff_assisted, ⟨0, 100⟩, 9⟩]⟩ 0 0 ⟨0, 10⟩
        ⟨⟨0, 100⟩, ⟨1, 0, 0, .automated, [0], 100, 200⟩, 0, .bstart⟩) :=
  C5_tie_schedule_wins _ 0 0 ⟨0, 10⟩ ⟨5, 0, 0, .staff_assisted, ⟨0, 100⟩, 9⟩
    ⟨⟨0, 100⟩, ⟨1, 0, 0, .automated, [0], 100, 200⟩, 0, .bstart⟩
    (by decide) (by decide) (by decide) (by decide)

/-- C6 counterexample: abutting schedules A (Mon 480-720, automated, id 1) and
B (Mon 720-1080, staff_assisted, id 2) with the store returning B before A:
at Mon 600 the next change is reported with B's mode and time 720 as claimed,
but with change type `schedule_start`, not `schedule_end`. -/
theorem C6_counterexample :
    get_next_gate_mode_change
        ⟨[⟨2, 0, 0, .staff_assisted, [0], 720, 1080⟩,
          ⟨1, 0, 0, .automated, [0], 480, 720⟩], []⟩ 0 0 ⟨0, 600⟩ =
      .ok ⟨0, true, some .schedule_start, none, none, some 2, some .staff_assisted,
           some ⟨0, 720⟩, some 0, none, some ⟨0, 600⟩⟩ ∧
    some NextChangeType.schedule_start ≠ some NextChangeType.schedule_end := by
  decide

/-- C6 (amended): for abutting schedules A and B (same weekday,
`A.end_time = B.start_time`) with `now` strictly inside A's window and no live
override, when the store returns A before B the next-change computation
reports change time `A.end_time` with change type `schedule_end` and next mode
equal to B's operation mode (continuity, not the default); when the store
returns B first, the same change time and next mode are reported but with type
`schedule_start` (see the counterexample). -/
theorem C6_abutting_continuity (A B : GateSchedule) (v g : Nat) (now : DateTime)
    (ovs : List GateOverride)
    (hAv : A.village_id = v) (hAg : A.gate_id = g)
    (hBv : B.village_id = v) (hBg : B.gate_id = g)
    (hAd : A.days_of_week.contains now.weekday = true)
    (hBd : B.days_of_week.contains now.weekday = true)
    (hab : A.end_time = B.start_time)
    (h1 : A.start_time < now.tod) (h2 : now.tod < A.end_time)
    (hBlt : B.start_time < B.end_time)
    (hno : ∀ o ∈ ovs, overrideForGate v g o = true →
           now.ltb o.expiry_time = false) :
    get_next_gate_mode_change ⟨[A, B], ovs⟩ v g now =
      .ok ⟨g, true, some .schedule_end, none, some A.id, none,
           some B.operation_mode.toStr, some ⟨now.day, A.end_time⟩, some 0, none,
           some now⟩ := by
  have hfa : scheduleForGate v g A = true := by
    unfold scheduleForGate; simp [hAv, hAg]
  have hfb : scheduleForGate v g B = true := by
    unfold scheduleForGate; simp [hBv, hBg]
  have hgate : gateExists ⟨[A, B], ovs⟩ v g = true := by
    unfold gateExists
    apply List.any_eq_true.mpr
    exact ⟨A, by simp, hfa⟩
  have hao : activeOverride ⟨[A, B], ovs⟩ v g now = none :=
    activeOverride_eq_none hno
  have hall : ((⟨[A, B], ovs⟩ : Db)).schedules.filter (scheduleForGate v g) = [A, B] := by
    show (([A, B] : List GateSchedule)).filter (scheduleForGate v g) = [A, B]
    simp [hfa, hfb]
  have hAs : ¬ (A.start_time > now.tod) := by omega
  have hAe : A.end_time > now.tod := h2
  have hBs : B.start_time > now.tod := by omega
  have hBe : B.end_time > now.tod := by omega
  have hltb1 : DateTime.ltb ⟨now.day, B.start_time⟩ ⟨now.day, A.end_time⟩ = false := by
    simp [DateTime.ltb]
    omega
  have hltb2 : DateTime.ltb ⟨now.day, B.end_time⟩ ⟨now.day, A.end_time⟩ = false := by
    simp [DateTime.ltb]
    omega
  have hstep1 : todayStep now none A = some ⟨⟨now.day, A.end_time⟩, A, 0, .bend⟩ := by
    simp [todayStep, considerCand, hAs, hAe]
  have hstep2 : todayStep now (some ⟨⟨now.day, A.end_time⟩, A, 0, .bend⟩) B =
      some ⟨⟨now.day, A.end_time⟩, A, 0, .bend⟩ := by
    simp [todayStep, considerCand, hBs, hBe, hltb1, hltb2]
  have hcand : nextCandidate [A, B] now =
      some ⟨⟨now.day, A.end_time⟩, A, 0, .bend⟩ := by
    unfold nextCandidate
    have hta : (([A, B] : List GateSchedule).filter
        (fun s => s.days_of_week.contains now.weekday)) = [A, B] := by
      have hAdm : now.weekday ∈ A.days_of_week := by simpa using hAd
      have hBdm : now.weekday ∈ B.days_of_week := by simpa using hBd
      simp [hAdm, hBdm]
    rw [hta, List.foldl_cons, List.foldl_cons, List.foldl_nil, hstep1, hstep2]
  have hmain : get_next_gate_mode_change ⟨[A, B], ovs⟩ v g now =
      .ok (scheduleChangeResponse ⟨[A, B], ovs⟩ v g now
        ⟨⟨now.day, A.end_time⟩, A, 0, .bend⟩) := by
    unfold get_next_gate_mode_change
    rw [hgate, hall, hao, hcand]
    rfl
  rw [hmain]
  have hA3 : (A.start_time == A.end_time) = false := by
    simp only [beq_eq_false_iff_ne, ne_eq]
    omega
  have hB3 : (B.start_time == A.end_time) = true := by
    simp [hab]
  have hfilter2 : (([A, B] : List GateSchedule).filter (fun s =>
      scheduleForGate v g s &&
      s.days_of_week.contains (DateTime.weekday ⟨now.day, A.end_time⟩) &&
      s.start_time == A.end_time)) = [B] := by
    have hwk : DateTime.weekday ⟨now.day, A.end_time⟩ = now.weekday := rfl
    simp [hwk, hfa, hfb, hAd, hBd, hA3, hB3]
    exact ⟨by simpa using hBd, hab.symm⟩
  simp only [scheduleChangeResponse, hfilter2, List.head?_cons]

theorem C6_abutting_continuity_witness :
    get_next_gate_mode_change
        ⟨[⟨1, 0, 0, .automated, [0], 480, 720⟩,
          ⟨2, 0, 0, .staff_assisted, [0], 720, 1080⟩], []⟩ 0 0 ⟨0, 600⟩ =
      .ok ⟨0, true, some .schedule_end, none, some 1, none, some .staff_assisted,
           some ⟨0, 720⟩, some 0, none, some ⟨0, 600⟩⟩ :=
  C6_abutting_continuity ⟨1, 0, 0, .automated, [0], 480, 720⟩
    ⟨2, 0, 0, .staff_assisted, [0], 720, 1080⟩ 0 0 ⟨0, 600⟩ []
    rfl rfl rfl rfl (by decide) (by decide) rfl (by decide) (by decide)
    (by decide) (by decide)

/-- C7 counterexample: two schedules both match `now` and the first row the
store returns has the later `start_time` (50 vs 40); the endpoint returns that
first row, so the claimed earliest-`start_time` tie-break does not happen. -/
theorem C7_counterexample :
    scheduleMatchesNow 0 0 ⟨0, 100⟩ ⟨2, 0, 0, .staff_assisted, [0], 40, 210⟩ = true ∧
    (40 : Nat) < 50 ∧
    get_effective_gate_operation_mode
        ⟨[⟨1, 0, 0, .automated, [0], 50, 200⟩,
          ⟨2, 0, 0, .staff_assisted, [0], 40, 210⟩], []⟩ 0 0 ⟨0, 100⟩ =
      .ok ⟨0, .automated, .schedule, none, none, some 1, some 50, some 200, ⟨0, 100⟩⟩ := by
  decide

/-- C7 (amended): with multiple simultaneously matching schedules the
effective-mode resolution deterministically picks the first matching schedule
in the order the store returns rows — no earliest-`start_time` tie-break is
applied — and it never throws: given the gate exists and no override is live,
it returns that first match as an ok result. -/
theorem C7_first_match (db : Db) (v g : Nat) (now : DateTime) (s : GateSchedule)
    (hgate : gateExists db v g = true)
    (hno : ∀ o ∈ db.overrides, overrideForGate v g o = true →
           now.ltb o.expiry_time = false)
    (hs : (db.schedules.filter (scheduleMatchesNow v g now)).head? = some s) :
    get_effective_gate_operation_mode db v g now =
      .ok ⟨g, s.operation_mode, .schedule, none, none, some s.id,
           some s.start_time, some s.end_time, now⟩ := by
  have hao : activeOverride db v g now = none := activeOverride_eq_none hno
  unfold get_effective_gate_operation_mode
  rw [hgate, hao, hs]
  rfl

theorem C7_first_match_witness :
    get_effective_gate_operation_mode
        ⟨[⟨1, 0, 0, .automated, [0], 50, 200⟩,
          ⟨2, 0, 0, .staff_assisted, [0], 40, 210⟩], []⟩ 0 0 ⟨0, 100⟩ =
      .ok ⟨0, GateOperationMode.automated, .schedule, none, none, some 1,
           some 50, some 200, ⟨0, 100⟩⟩ :=
  C7_first_match _ 0 0 _ ⟨1, 0, 0, .automated, [0], 50, 200⟩
    (by decide) (by decide) (by decide)

/-- C8: for an admin of the gate's own village, schedule creation errors
(persisting nothing) exactly when `start_time >= end_time` or some stored
schedule of the same village and gate has an intersecting `days_of_week` set
and a strictly overlapping time range (`existing.start_time < new.end_time`
and `existing.end_time > new.start_time`); abutting windows fail the strict
inequalities and are accepted. -/
theorem C8_create_rejects_iff (db : Db) (uv new_id : Nat) (d : GateScheduleCreate)
    (hv : d.village_id = uv) :
    exceptOk (create_gate_schedule db UserRole.ADMIN uv d new_id) = false ↔
      (d.start_time ≥ d.end_time ∨
        ∃ s, s ∈ db.schedules ∧ s.village_id = uv ∧ s.gate_id = d.gate_id ∧
          daysOverlap s.days_of_week d.days_of_week = true ∧
          s.start_time < d.end_time ∧ s.end_time > d.start_time) := by
  unfold create_gate_schedule
  rw [if_neg (by simp), if_neg (by simp [hv])]
  by_cases h1 : d.start_time ≥ d.end_time
  · rw [if_pos h1]
    simp only [exceptOk]
    constructor
    · intro _; exact Or.inl h1
    · intro _; trivial
  · rw [if_neg h1]
    cases hfil : db.schedules.filter (fun s =>
        s.village_id == uv && s.gate_id == d.gate_id &&
        daysOverlap s.days_of_week d.days_of_week &&
        decide (s.start_time < d.end_time) && decide (s.end_time > d.start_time)) with
    | nil =>
        simp only [List.isEmpty_nil, Bool.not_true]
        rw [if_neg (by simp)]
        simp only [exceptOk]
        constructor
        · intro hcontra; exact absurd hcontra (by decide)
        · intro hrhs
          exfalso
          rcases hrhs with h | ⟨s, hs, hsv, hsg, hdo, hst, hse⟩
          · exact h1 h
          · have hnot := List.filter_eq_nil_iff.mp hfil s hs
            apply hnot
            simp only [Bool.and_eq_true, beq_iff_eq, decide_eq_true_eq]
            exact ⟨⟨⟨⟨hsv, hsg⟩, hdo⟩, hst⟩, hse⟩
    | cons x xs =>
        simp only [List.isEmpty_cons, Bool.not_false]
        rw [if_pos trivial]
        simp only [exceptOk]
        constructor
        · intro _
          right
          have hxf : x ∈ db.schedules.filter (fun s =>
              s.village_id == uv && s.gate_id == d.gate_id &&
              daysOverlap s.days_of_week d.days_of_week &&
              decide (s.start_time < d.end_time) && decide (s.end_time > d.start_time)) := by
            rw [hfil]; exact List.mem_cons_self x xs
          obtain ⟨hxl, hpx⟩ := List.mem_filter.mp hxf
          simp only [Bool.and_eq_true, beq_iff_eq, decide_eq_true_eq] at hpx
          obtain ⟨⟨⟨⟨ha, hb⟩, hc⟩, hd2⟩, he⟩ := hpx
          exact ⟨x, hxl, ha, hb, hc, hd2, he⟩
        · intro _; trivial

theorem C8_create_rejects_iff_witness :
    (exceptOk (create_gate_schedule ⟨[⟨1, 0, 0, .automated, [0], 480, 720⟩], []⟩
        UserRole.ADMIN 0 ⟨0, 0, .staff_assisted, [0], 720, 1080⟩ 2) = false ↔
      ((720 : Nat) ≥ 1080 ∨
        ∃ s, s ∈ ([⟨1, 0, 0, .automated, [0], 480, 720⟩] : List GateSchedule) ∧
          s.village_id = 0 ∧ s.gate_id = 0 ∧
          daysOverlap s.days_of_week [0] = true ∧
          s.start_time < 1080 ∧ s.end_time > 720)) :=
  C8_create_rejects_iff ⟨[⟨1, 0, 0, .automated, [0], 480, 720⟩], []⟩ 0 2
    ⟨0, 0, .staff_assisted, [0], 720, 1080⟩ rfl

/-- C9: for a gate whose schedule rows all apply only to Sunday (weekday 6),
with no live override, the next-change computation queried at any time on a
Monday reports a single `schedule_start` change exactly 6 days ahead (the
coming Sunday), at the earliest `start_time` among the gate's schedules — the
7-day lookahead neither misses nor duplicates the weekly boundary. -/
theorem C9_sunday_lookahead (db : Db) (v g : Nat) (now : DateTime)
    (s : GateSchedule) (rest : List GateSchedule)
    (hmon : now.weekday = 0)
    (hall : db.schedules.filter (scheduleForGate v g) = s :: rest)
    (hdays : ∀ t ∈ s :: rest, (∀ d ∈ t.days_of_week, d = 6) ∧
             t.days_of_week.contains 6 = true)
    (hno : ∀ o ∈ db.overrides, overrideForGate v g o = true →
           now.ltb o.expiry_time = false) :
    get_next_gate_mode_change db v g now =
      .ok ⟨g, true, some .schedule_start, none, none, some (minByStart s rest).id,
           some (minByStart s rest).operation_mode.toStr,
           some ⟨now.day + 6, (minByStart s rest).start_time⟩, some 6, none,
           some now⟩ := by
  have hgate := gateExists_of_filter_cons hall
  have hao : activeOverride db v g now = none := activeOverride_eq_none hno
  have hconly : ∀ k, k ≠ 6 → (s :: rest).filter
      (fun t => t.days_of_week.contains k) = [] := by
    intro k hk
    rw [List.filter_eq_nil_iff]
    intro t ht hcontra
    have hmem : k ∈ t.days_of_week := by simpa using hcontra
    exact hk ((hdays t ht).1 k hmem)
  have hc6 : (s :: rest).filter (fun t => t.days_of_week.contains 6) = s :: rest := by
    rw [List.filter_eq_self]
    intro t ht
    exact (hdays t ht).2
  have hcand : nextCandidate (s :: rest) now = some
      ⟨⟨now.day + 6, (minByStart s rest).start_time⟩, minByStart s rest, 6, .bstart⟩ := by
    unfold nextCandidate
    rw [hmon, hconly 0 (by decide), List.foldl_nil]
    show findAhead (s :: rest) now 0 1 7 = _
    have s1 : findAhead (s :: rest) now 0 1 7 = findAhead (s :: rest) now 0 2 6 :=
      findAhead_skip _ now 0 1 6 (hconly 1 (by decide))
    have s2 : findAhead (s :: rest) now 0 2 6 = findAhead (s :: rest) now 0 3 5 :=
      findAhead_skip _ now 0 2 5 (hconly 2 (by decide))
    have s3 : findAhead (s :: rest) now 0 3 5 = findAhead (s :: rest) now 0 4 4 :=
      findAhead_skip _ now 0 3 4 (hconly 3 (by decide))
    have s4 : findAhead (s :: rest) now 0 4 4 = findAhead (s :: rest) now 0 5 3 :=
      findAhead_skip _ now 0 4 3 (hconly 4 (by decide))
    have s5 : findAhead (s :: rest) now 0 5 3 = findAhead (s :: rest) now 0 6 2 :=
      findAhead_skip _ now 0 5 2 (hconly 5 (by decide))
    have s6 : findAhead (s :: rest) now 0 6 2 = some
        ⟨⟨now.day + 6, (minByStart s rest).start_time⟩,
         minByStart s rest, 6, .bstart⟩ :=
      findAhead_hit _ now 0 6 1 s rest hc6
    rw [s1, s2, s3, s4, s5, s6]
  unfold get_next_gate_mode_change
  rw [hgate, hall, hao, hcand]
  rfl

theorem C9_sunday_lookahead_witness :
    get_next_gate_mode_change ⟨[⟨1, 0, 0, .automated, [6], 100, 200⟩], []⟩ 0 0 ⟨0, 50⟩ =
      .ok ⟨0, true, some .schedule_start, none, none, some 1, some .automated,
           some ⟨6, 100⟩, some 6, none, some ⟨0, 50⟩⟩ :=
  C9_sunday_lookahead _ 0 0 ⟨0, 50⟩ ⟨1, 0, 0, .automated, [6], 100, 200⟩ []
    (by decide) (by decide) (by decide) (by decide)

/-- C10: clearing the override for a gate that has no override row is a
successful no-op — a staff or admin clear returns ok with the stored state
unchanged; since the state is unchanged, clearing twice has the same effect
as clearing once. -/
theorem C10_clear_noop (db : Db) (role : UserRole) (v g : Nat)
    (hrole : role = UserRole.ADMIN ∨ role = UserRole.STAFF)
    (hnone : ∀ o ∈ db.overrides, overrideForGate v g o = false) :
    clear_gate_operation_mode_override db role v g = .ok db := by
  unfold clear_gate_operation_mode_override
  rw [if_neg (by rcases hrole with h | h <;> simp [h])]
  have hnil : db.overrides.filter (overrideForGate v g) = [] := by
    rw [List.filter_eq_nil_iff]
    intro o ho
    rw [hnone o ho]
    exact Bool.false_ne_true
  rw [hnil]
  rfl

theorem C10_clear_noop_witness :
    clear_gate_operation_mode_override ⟨[], [⟨3, 1, 1, .automated, ⟨0, 10⟩, 2⟩]⟩
        UserRole.ADMIN 0 0 =
      .ok ⟨[], [⟨3, 1, 1, .automated, ⟨0, 10⟩, 2⟩]⟩ :=
  C10_clear_noop _ _ 0 0 (Or.inl rfl) (by decide)

end SmartVillage
